import Mathlib

/-!
# learnopengl: a triangle in a window

A shallow embedding of `src/main.cpp`.  The program is a straight line of calls into
GLFW, GLAD and OpenGL followed by a render loop, so the embedding runs it against a
recording backend: every library call is appended to a call trace and updates the
little piece of window / GL state that the program can observe or that the calls are
documented to set (close flag, viewport, current bindings).  Everything the libraries
decide on their own (handles, status flags, info logs, key states, window events) is
supplied by a `Backend`.

The `while` loop has no bound in the source; `loop` takes a fuel argument counting
condition checks and reports whether the loop was left.
-/

namespace LearnOpenGL

/-! ## Header constants used by `main.cpp` (glfw3.h, glad.h) -/

def GLFW_CONTEXT_VERSION_MAJOR : Int := 0x00022002
def GLFW_CONTEXT_VERSION_MINOR : Int := 0x00022003
def GLFW_OPENGL_PROFILE : Int := 0x00022008
def GLFW_OPENGL_CORE_PROFILE : Int := 0x00032001
def GLFW_KEY_ESCAPE : Int := 256
def GLFW_PRESS : Int := 1
def GL_VERTEX_SHADER : Int := 0x8B31
def GL_FRAGMENT_SHADER : Int := 0x8B30
def GL_COMPILE_STATUS : Int := 0x8B81
def GL_LINK_STATUS : Int := 0x8B82
def GL_ARRAY_BUFFER : Int := 0x8892
def GL_STATIC_DRAW : Int := 0x88E4
def GL_FLOAT : Int := 0x1406
def GL_FALSE : Int := 0
def GL_COLOR_BUFFER_BIT : Int := 0x00004000
def GL_TRIANGLES : Int := 0x0004

/-- The size of a `float` in bytes. -/
def sizeof_float : Nat := 4

/-! ## Calls, events, backend, world -/

/-- One call into GLFW, GLAD or OpenGL, with the arguments the program passes.
Handles (`unsigned int`, `GLFWwindow*`) are naturals, `0` being `NULL`; `float`
arguments are the exact rational value of the literal (all literals of the program are
binary fractions, hence exactly representable); out-parameters and `NULL` arguments
are left out. -/
inductive Call where
  | glfwInit
  | glfwWindowHint (hint value : Int)
  | glfwCreateWindow (width height : Int) (title : String)
  | glfwTerminate
  | glfwMakeContextCurrent (window : Nat)
  | gladLoadGLLoader
  | glViewport (x y width height : Int)
  | glfwSetFramebufferSizeCallback (window : Nat)
  | glCreateShader (kind : Int)
  | glShaderSource (shader : Nat) (count : Int) (source : String)
  | glCompileShader (shader : Nat)
  | glGetShaderiv (shader : Nat) (pname : Int)
  | glGetShaderInfoLog (shader : Nat) (maxLength : Int)
  | glCreateProgram
  | glAttachShader (program shader : Nat)
  | glLinkProgram (program : Nat)
  | glGetProgramiv (program : Nat) (pname : Int)
  | glGetProgramInfoLog (program : Nat) (maxLength : Int)
  | glDeleteShader (shader : Nat)
  | glGenVertexArrays (n : Int)
  | glGenBuffers (n : Int)
  | glBindVertexArray (array : Nat)
  | glBindBuffer (target : Int) (buffer : Nat)
  | glBufferData (target : Int) (size : Nat) (data : List ℚ) (usage : Int)
  | glVertexAttribPointer (index : Nat) (size kind normalized : Int) (stride pointer : Nat)
  | glEnableVertexAttribArray (index : Nat)
  | glfwWindowShouldClose (window : Nat)
  | glfwGetKey (window : Nat) (key : Int)
  | glfwSetWindowShouldClose (window : Nat) (value : Bool)
  | glClearColor (red green blue alpha : ℚ)
  | glClear (mask : Int)
  | glUseProgram (program : Nat)
  | glDrawArrays (mode first count : Int)
  | glfwSwapBuffers (window : Nat)
  | glfwPollEvents
  deriving DecidableEq, Repr

/-- A window event delivered while `glfwPollEvents` runs. -/
inductive Event where
  /-- the framebuffer of the window was resized -/
  | framebufferSize (width height : Int)
  /-- the user asked the window to close -/
  | close
  deriving DecidableEq, Repr

/-- What the libraries return.  `getKey` and `pollEvents` are indexed by the number of
`glfwPollEvents` calls completed so far. -/
structure Backend where
  /-- result of `glfwCreateWindow`, `0` for `NULL` -/
  createWindow : Nat
  /-- result of `gladLoadGLLoader`, `0` for failure -/
  loadGL : Int
  /-- result of `glCreateShader` for a shader type -/
  createShader : Int → Nat
  /-- result of `glCreateProgram` -/
  createProgram : Nat
  /-- value `glGetShaderiv` stores for a shader and parameter name -/
  shaderiv : Nat → Int → Int
  /-- info log of a shader -/
  shaderInfoLog : Nat → String
  /-- value `glGetProgramiv` stores for a program and parameter name -/
  programiv : Nat → Int → Int
  /-- info log of a program -/
  programInfoLog : Nat → String
  /-- name stored by `glGenVertexArrays` -/
  genVertexArray : Nat
  /-- name stored by `glGenBuffers` -/
  genBuffer : Nat
  /-- result of `glfwGetKey` for a key -/
  getKey : Nat → Int → Int
  /-- events delivered by `glfwPollEvents` -/
  pollEvents : Nat → List Event

/-- A draw call together with the bindings current when it was issued. -/
structure Draw where
  mode : Int
  first : Int
  count : Int
  program : Nat
  vertexArray : Nat
  deriving DecidableEq, Repr

/-- The recorded run so far and the window / GL state. -/
structure World where
  /-- library calls, oldest first -/
  trace : List Call
  /-- what was written to standard output, one entry per statement -/
  out : List String
  /-- the viewport rectangle `(x, y, width, height)` -/
  viewport : Int × Int × Int × Int
  /-- the close flag of the window -/
  shouldClose : Bool
  /-- the window whose framebuffer-size callback is `framebuffer_size_callback` -/
  resizeCallback : Option Nat
  /-- number of completed `glfwPollEvents` calls -/
  tick : Nat
  /-- the program made current by `glUseProgram` -/
  program : Nat
  /-- the vertex array bound by `glBindVertexArray` -/
  vertexArray : Nat
  /-- the buffer bound to `GL_ARRAY_BUFFER` -/
  arrayBuffer : Nat
  /-- draw calls with their bindings, oldest first -/
  draws : List Draw
  deriving DecidableEq, Repr

/-- The world before `main` starts. -/
def World.start : World :=
  { trace := [], out := [], viewport := (0, 0, 0, 0), shouldClose := false,
    resizeCallback := none, tick := 0, program := 0, vertexArray := 0, arrayBuffer := 0,
    draws := [] }

/-- Record a call. -/
def emit (c : Call) (s : World) : World :=
  { s with trace := s.trace ++ [c] }

/-- Record one `std::cout << ... << std::endl` statement. -/
def cout (text : String) (s : World) : World :=
  { s with out := s.out ++ [text ++ "\n"] }

/-! ## The library calls -/

def glfwInit (s : World) : World := emit .glfwInit s

def glfwWindowHint (hint value : Int) (s : World) : World :=
  emit (.glfwWindowHint hint value) s

def glfwCreateWindow (b : Backend) (width height : Int) (title : String) (s : World) :
    Nat × World :=
  (b.createWindow, emit (.glfwCreateWindow width height title) s)

def glfwTerminate (s : World) : World := emit .glfwTerminate s

def glfwMakeContextCurrent (window : Nat) (s : World) : World :=
  emit (.glfwMakeContextCurrent window) s

def gladLoadGLLoader (b : Backend) (s : World) : Int × World :=
  (b.loadGL, emit .gladLoadGLLoader s)

def glViewport (x y width height : Int) (s : World) : World :=
  { emit (.glViewport x y width height) s with viewport := (x, y, width, height) }

def glfwSetFramebufferSizeCallback (window : Nat) (s : World) : World :=
  { emit (.glfwSetFramebufferSizeCallback window) s with resizeCallback := some window }

def glCreateShader (b : Backend) (kind : Int) (s : World) : Nat × World :=
  (b.createShader kind, emit (.glCreateShader kind) s)

def glShaderSource (shader : Nat) (count : Int) (source : String) (s : World) : World :=
  emit (.glShaderSource shader count source) s

def glCompileShader (shader : Nat) (s : World) : World :=
  emit (.glCompileShader shader) s

def glGetShaderiv (b : Backend) (shader : Nat) (pname : Int) (s : World) : Int × World :=
  (b.shaderiv shader pname, emit (.glGetShaderiv shader pname) s)

/-- At most `maxLength - 1` characters of the log are stored, then the terminator. -/
def glGetShaderInfoLog (b : Backend) (shader : Nat) (maxLength : Int) (s : World) :
    String × World :=
  ((b.shaderInfoLog shader).take (maxLength.toNat - 1),
    emit (.glGetShaderInfoLog shader maxLength) s)

def glCreateProgram (b : Backend) (s : World) : Nat × World :=
  (b.createProgram, emit .glCreateProgram s)

def glAttachShader (program shader : Nat) (s : World) : World :=
  emit (.glAttachShader program shader) s

def glLinkProgram (program : Nat) (s : World) : World :=
  emit (.glLinkProgram program) s

def glGetProgramiv (b : Backend) (program : Nat) (pname : Int) (s : World) : Int × World :=
  (b.programiv program pname, emit (.glGetProgramiv program pname) s)

/-- At most `maxLength - 1` characters of the log are stored, then the terminator. -/
def glGetProgramInfoLog (b : Backend) (program : Nat) (maxLength : Int) (s : World) :
    String × World :=
  ((b.programInfoLog program).take (maxLength.toNat - 1),
    emit (.glGetProgramInfoLog program maxLength) s)

def glDeleteShader (shader : Nat) (s : World) : World :=
  emit (.glDeleteShader shader) s

def glGenVertexArrays (b : Backend) (n : Int) (s : World) : Nat × World :=
  (b.genVertexArray, emit (.glGenVertexArrays n) s)

def glGenBuffers (b : Backend) (n : Int) (s : World) : Nat × World :=
  (b.genBuffer, emit (.glGenBuffers n) s)

def glBindVertexArray (array : Nat) (s : World) : World :=
  { emit (.glBindVertexArray array) s with vertexArray := array }

/-- The program binds `GL_ARRAY_BUFFER` only. -/
def glBindBuffer (target : Int) (buffer : Nat) (s : World) : World :=
  { emit (.glBindBuffer target buffer) s with
    arrayBuffer := if target = GL_ARRAY_BUFFER then buffer else s.arrayBuffer }

def glBufferData (target : Int) (size : Nat) (data : List ℚ) (usage : Int) (s : World) :
    World :=
  emit (.glBufferData target size data usage) s

def glVertexAttribPointer (index : Nat) (size kind normalized : Int) (stride pointer : Nat)
    (s : World) : World :=
  emit (.glVertexAttribPointer index size kind normalized stride pointer) s

def glEnableVertexAttribArray (index : Nat) (s : World) : World :=
  emit (.glEnableVertexAttribArray index) s

def glfwWindowShouldClose (window : Nat) (s : World) : Bool × World :=
  (s.shouldClose, emit (.glfwWindowShouldClose window) s)

def glfwGetKey (b : Backend) (window : Nat) (key : Int) (s : World) : Int × World :=
  (b.getKey s.tick key, emit (.glfwGetKey window key) s)

def glfwSetWindowShouldClose (window : Nat) (value : Bool) (s : World) : World :=
  { emit (.glfwSetWindowShouldClose window value) s with shouldClose := value }

def glClearColor (red green blue alpha : ℚ) (s : World) : World :=
  emit (.glClearColor red green blue alpha) s

def glClear (mask : Int) (s : World) : World := emit (.glClear mask) s

def glUseProgram (program : Nat) (s : World) : World :=
  { emit (.glUseProgram program) s with program := program }

def glDrawArrays (mode first count : Int) (s : World) : World :=
  { emit (.glDrawArrays mode first count) s with
    draws := s.draws ++ [⟨mode, first, count, s.program, s.vertexArray⟩] }

def glfwSwapBuffers (window : Nat) (s : World) : World :=
  emit (.glfwSwapBuffers window) s

/-! ## `main.cpp` -/

/-- Lines 6-8: the event listener for window resize. -/
def framebuffer_size_callback (_window : Nat) (width height : Int) (s : World) : World :=
  glViewport 0 0 width height s

/-- Delivery of one event: a resize runs the installed callback, a close request sets
the close flag. -/
def deliver (e : Event) (s : World) : World :=
  match e with
  | .framebufferSize width height =>
    match s.resizeCallback with
    | some window => framebuffer_size_callback window width height s
    | none => s
  | .close => { s with shouldClose := true }

def glfwPollEvents (b : Backend) (s : World) : World :=
  let s := emit .glfwPollEvents s
  let s := (b.pollEvents s.tick).foldl (fun s e => deliver e s) s
  { s with tick := s.tick + 1 }

/-- Lines 11-15: the input listener. -/
def processInput (b : Backend) (window : Nat) (s : World) : World :=
  let (key, s) := glfwGetKey b window GLFW_KEY_ESCAPE s
  if key = GLFW_PRESS then
    glfwSetWindowShouldClose window true s
  else
    s

/-- Lines 17-26. -/
def checkShaderSuccess (b : Backend) (shader : Nat) (s : World) : World :=
  let (success, s) := glGetShaderiv b shader GL_COMPILE_STATUS s
  if success = 0 then
    let (infoLog, s) := glGetShaderInfoLog b shader 512 s
    cout ("ERROR::SHADER::VERTEX::COMPILATION_FAILED\n" ++ infoLog) s
  else
    s

/-- Lines 28-36. -/
def checkShaderProgramSuccess (b : Backend) (shaderProgram : Nat) (s : World) : World :=
  let (success, s) := glGetProgramiv b shaderProgram GL_LINK_STATUS s
  if success = 0 then
    let (infoLog, s) := glGetProgramInfoLog b shaderProgram 512 s
    cout ("ERROR::SHADER::VERTEX::COMPILATION_FAILED\n" ++ infoLog) s
  else
    s

/-- Lines 38-44 (the text up to the terminator written in the literal). -/
def vertexShaderSource : String :=
  "#version 330 core\n" ++
  "layout (location = 0) in vec3 aPos;\n" ++
  "void main()\n" ++
  "\x7b\n" ++
  "   gl_Position = vec4(aPos.x, aPos.y, aPos.z, 1.0);\n" ++
  "\x7d"

/-- Lines 45-51. -/
def fragmentShaderSource : String :=
  "#version 330 core\n" ++
  "out vec4 FragColor;\n" ++
  "void main()\n" ++
  "\x7b\n" ++
  "    FragColor = vec4(1.0f, 0.5f, 0.2f, 1.0f);\n" ++
  "\x7d\n"

/-- Lines 115-119: `float vertices[]`. -/
def vertices : List ℚ :=
  [-0.5, -0.5, 0.0,
    0.5, -0.5, 0.0,
    0.0,  0.5, 0.0]

/-- The value of `sizeof(vertices)`. -/
def sizeof_vertices : Nat := vertices.length * sizeof_float

/-- Lines 175-191: the body of the event loop. -/
def frame (b : Backend) (window shaderProgram VAO : Nat) (s : World) : World :=
  let s := processInput b window s
  let s := glClearColor 0.0 0.0 0.0 1.0 s
  let s := glClear GL_COLOR_BUFFER_BIT s
  let s := glUseProgram shaderProgram s
  let s := glBindVertexArray VAO s
  let s := glDrawArrays GL_TRIANGLES 0 3 s
  let s := glfwSwapBuffers window s
  glfwPollEvents b s

/-- Lines 173-192: `while (!glfwWindowShouldClose(window)) ...`, with at most `fuel`
condition checks.  The flag returned says whether the loop was left. -/
def loop (b : Backend) (window shaderProgram VAO : Nat) : Nat → World → Bool × World
  | 0, s => (false, s)
  | fuel + 1, s =>
    let (close, s) := glfwWindowShouldClose window s
    if close then (true, s)
    else loop b window shaderProgram VAO fuel (frame b window shaderProgram VAO s)

/-- Lines 56-195.  The result is the exit status, `none` when the event loop is still
running after `fuel` condition checks, and the world reached. -/
def main (b : Backend) (fuel : Nat) : Option Int × World :=
  let s := glfwInit World.start
  let s := glfwWindowHint GLFW_CONTEXT_VERSION_MAJOR 3 s
  let s := glfwWindowHint GLFW_CONTEXT_VERSION_MINOR 3 s
  let s := glfwWindowHint GLFW_OPENGL_PROFILE GLFW_OPENGL_CORE_PROFILE s
  let (window, s) := glfwCreateWindow b 800 600 "learnOpenGL" s
  if window = 0 then
    let s := cout "Unable to create GLFW window" s
    let s := glfwTerminate s
    (some (-1), s)
  else
    let s := glfwMakeContextCurrent window s
    let (loaded, s) := gladLoadGLLoader b s
    if loaded = 0 then
      let s := cout "Unable to load GLAD" s
      (some (-1), s)
    else
      let s := glViewport 0 0 800 600 s
      let s := glfwSetFramebufferSizeCallback window s
      -- vertex shader
      let (vertexShader, s) := glCreateShader b GL_VERTEX_SHADER s
      let s := glShaderSource vertexShader 1 vertexShaderSource s
      let s := glCompileShader vertexShader s
      let s := checkShaderSuccess b vertexShader s
      -- fragment shader
      let (fragmentShader, s) := glCreateShader b GL_FRAGMENT_SHADER s
      let s := glShaderSource fragmentShader 1 fragmentShaderSource s
      let s := glCompileShader fragmentShader s
      let s := checkShaderSuccess b fragmentShader s
      -- shader program
      let (shaderProgram, s) := glCreateProgram b s
      let s := glAttachShader shaderProgram vertexShader s
      let s := glAttachShader shaderProgram fragmentShader s
      let s := glLinkProgram shaderProgram s
      let s := checkShaderProgramSuccess b shaderProgram s
      let s := glDeleteShader vertexShader s
      let s := glDeleteShader fragmentShader s
      -- vertex data
      let (VAO, s) := glGenVertexArrays b 1 s
      let (VBO, s) := glGenBuffers b 1 s
      let s := glBindVertexArray VAO s
      let s := glBindBuffer GL_ARRAY_BUFFER VBO s
      let s := glBufferData GL_ARRAY_BUFFER sizeof_vertices vertices GL_STATIC_DRAW s
      let s := glVertexAttribPointer 0 3 GL_FLOAT GL_FALSE (3 * sizeof_float) 0 s
      let s := glEnableVertexAttribArray 0 s
      let s := glBindBuffer GL_ARRAY_BUFFER 0 s
      let s := glBindVertexArray 0 s
      -- event loop
      let (left, s) := loop b window shaderProgram VAO fuel s
      if left then
        let s := glfwTerminate s
        (some 0, s)
      else
        (none, s)

/-! ## Descriptions of the run used to state the results -/

/-- Calls made by the resize callback while the given events are delivered. -/
def resizeCalls (callback : Option Nat) : List Event → List Call
  | [] => []
  | .framebufferSize width height :: events =>
    (match callback with
      | some _ => [Call.glViewport 0 0 width height]
      | none => []) ++ resizeCalls callback events
  | .close :: events => resizeCalls callback events

/-- The viewport after the given events are delivered. -/
def resizedViewport (callback : Option Nat) :
    List Event → Int × Int × Int × Int → Int × Int × Int × Int
  | [], viewport => viewport
  | .framebufferSize width height :: events, viewport =>
    resizedViewport callback events
      (match callback with
        | some _ => (0, 0, width, height)
        | none => viewport)
  | .close :: events, viewport => resizedViewport callback events viewport

/-- Calls of one pass through the loop body when `tick` polls have completed. -/
def frameCalls (b : Backend) (window shaderProgram VAO : Nat) (callback : Option Nat)
    (tick : Nat) : List Call :=
  [Call.glfwGetKey window GLFW_KEY_ESCAPE] ++
  (if b.getKey tick GLFW_KEY_ESCAPE = GLFW_PRESS then
    [Call.glfwSetWindowShouldClose window true] else []) ++
  [Call.glClearColor 0 0 0 1, Call.glClear GL_COLOR_BUFFER_BIT,
    Call.glUseProgram shaderProgram, Call.glBindVertexArray VAO,
    Call.glDrawArrays GL_TRIANGLES 0 3, Call.glfwSwapBuffers window, Call.glfwPollEvents] ++
  resizeCalls callback (b.pollEvents tick)

/-- Calls of `n` consecutive loop iterations starting at `tick`: each is the condition
check followed by the body. -/
def iterationCalls (b : Backend) (window shaderProgram VAO : Nat) (callback : Option Nat) :
    Nat → Nat → List Call
  | _, 0 => []
  | tick, n + 1 =>
    Call.glfwWindowShouldClose window ::
      frameCalls b window shaderProgram VAO callback tick ++
      iterationCalls b window shaderProgram VAO callback (tick + 1) n

/-- Calls of lines 57-168 when the window is created and the loader succeeds. -/
def setupCalls (b : Backend) : List Call :=
  [Call.glfwInit,
    Call.glfwWindowHint GLFW_CONTEXT_VERSION_MAJOR 3,
    Call.glfwWindowHint GLFW_CONTEXT_VERSION_MINOR 3,
    Call.glfwWindowHint GLFW_OPENGL_PROFILE GLFW_OPENGL_CORE_PROFILE,
    Call.glfwCreateWindow 800 600 "learnOpenGL",
    Call.glfwMakeContextCurrent b.createWindow,
    Call.gladLoadGLLoader,
    Call.glViewport 0 0 800 600,
    Call.glfwSetFramebufferSizeCallback b.createWindow,
    Call.glCreateShader GL_VERTEX_SHADER,
    Call.glShaderSource (b.createShader GL_VERTEX_SHADER) 1 vertexShaderSource,
    Call.glCompileShader (b.createShader GL_VERTEX_SHADER),
    Call.glGetShaderiv (b.createShader GL_VERTEX_SHADER) GL_COMPILE_STATUS] ++
  (if b.shaderiv (b.createShader GL_VERTEX_SHADER) GL_COMPILE_STATUS = 0 then
    [Call.glGetShaderInfoLog (b.createShader GL_VERTEX_SHADER) 512] else []) ++
  [Call.glCreateShader GL_FRAGMENT_SHADER,
    Call.glShaderSource (b.createShader GL_FRAGMENT_SHADER) 1 fragmentShaderSource,
    Call.glCompileShader (b.createShader GL_FRAGMENT_SHADER),
    Call.glGetShaderiv (b.createShader GL_FRAGMENT_SHADER) GL_COMPILE_STATUS] ++
  (if b.shaderiv (b.createShader GL_FRAGMENT_SHADER) GL_COMPILE_STATUS = 0 then
    [Call.glGetShaderInfoLog (b.createShader GL_FRAGMENT_SHADER) 512] else []) ++
  [Call.glCreateProgram,
    Call.glAttachShader b.createProgram (b.createShader GL_VERTEX_SHADER),
    Call.glAttachShader b.createProgram (b.createShader GL_FRAGMENT_SHADER),
    Call.glLinkProgram b.createProgram,
    Call.glGetProgramiv b.createProgram GL_LINK_STATUS] ++
  (if b.programiv b.createProgram GL_LINK_STATUS = 0 then
    [Call.glGetProgramInfoLog b.createProgram 512] else []) ++
  [Call.glDeleteShader (b.createShader GL_VERTEX_SHADER),
    Call.glDeleteShader (b.createShader GL_FRAGMENT_SHADER),
    Call.glGenVertexArrays 1,
    Call.glGenBuffers 1,
    Call.glBindVertexArray b.genVertexArray,
    Call.glBindBuffer GL_ARRAY_BUFFER b.genBuffer,
    Call.glBufferData GL_ARRAY_BUFFER 36 vertices GL_STATIC_DRAW,
    Call.glVertexAttribPointer 0 3 GL_FLOAT GL_FALSE 12 0,
    Call.glEnableVertexAttribArray 0,
    Call.glBindBuffer GL_ARRAY_BUFFER 0,
    Call.glBindVertexArray 0]

/-- The diagnostic printed for a failed status check. -/
def diagnostic (log : String) : String :=
  "ERROR::SHADER::VERTEX::COMPILATION_FAILED\n" ++ log.take 511 ++ "\n"

/-- Standard output of lines 57-168 when the window is created and the loader succeeds. -/
def setupOut (b : Backend) : List String :=
  (if b.shaderiv (b.createShader GL_VERTEX_SHADER) GL_COMPILE_STATUS = 0 then
    [diagnostic (b.shaderInfoLog (b.createShader GL_VERTEX_SHADER))] else []) ++
  (if b.shaderiv (b.createShader GL_FRAGMENT_SHADER) GL_COMPILE_STATUS = 0 then
    [diagnostic (b.shaderInfoLog (b.createShader GL_FRAGMENT_SHADER))] else []) ++
  (if b.programiv b.createProgram GL_LINK_STATUS = 0 then
    [diagnostic (b.programInfoLog b.createProgram)] else [])

/-- The world in which the event loop is entered. -/
def atLoop (b : Backend) : World :=
  { trace := setupCalls b, out := setupOut b, viewport := (0, 0, 800, 600),
    shouldClose := false, resizeCallback := some b.createWindow, tick := 0,
    program := 0, vertexArray := 0, arrayBuffer := 0, draws := [] }

/-! ## Observations on calls and worlds -/

def Call.isDraw : Call → Bool
  | .glDrawArrays _ _ _ => true
  | _ => false

def Call.isGenBuffers : Call → Bool
  | .glGenBuffers _ => true
  | _ => false

def Call.isBufferData : Call → Bool
  | .glBufferData _ _ _ _ => true
  | _ => false

def Call.isBindBuffer : Call → Bool
  | .glBindBuffer _ _ => true
  | _ => false

def Call.isBindVertexArray : Call → Bool
  | .glBindVertexArray _ => true
  | _ => false

def Call.isVertexAttribPointer : Call → Bool
  | .glVertexAttribPointer _ _ _ _ _ _ => true
  | _ => false

/-- The calls that occur from the first loop condition check on. -/
def Call.inLoop : Call → Bool
  | .glfwWindowShouldClose _ => true
  | .glfwGetKey _ _ => true
  | .glfwSetWindowShouldClose _ _ => true
  | .glClearColor _ _ _ _ => true
  | .glClear _ => true
  | .glUseProgram _ => true
  | .glBindVertexArray _ => true
  | .glDrawArrays _ _ _ => true
  | .glfwSwapBuffers _ => true
  | .glfwPollEvents => true
  | .glViewport _ _ _ _ => true
  | .glfwTerminate => true
  | _ => false

/-- The two queries for a diagnostic log. -/
def Call.isInfoLog : Call → Bool
  | .glGetShaderInfoLog _ _ => true
  | .glGetProgramInfoLog _ _ => true
  | _ => false

/-- The steps of a loop iteration as the specification names them. -/
inductive Step where
  | inputPoll (key : Int)
  | clearColorBuffer
  | bindProgram (program : Nat)
  | bindGeometry (array : Nat)
  | draw (mode first count : Int)
  | present
  | pollEvents
  deriving DecidableEq, Repr

/-- The step a call carries out.  Three calls of an iteration are part of a step
without being one: `glfwSetWindowShouldClose` belongs to the input poll, `glClearColor`
sets the colour of the clear that follows, and `glViewport` is issued by the resize
callback while events are polled. -/
def Call.step : Call → Option Step
  | .glfwGetKey _ key => some (.inputPoll key)
  | .glClear _ => some .clearColorBuffer
  | .glUseProgram program => some (.bindProgram program)
  | .glBindVertexArray array => some (.bindGeometry array)
  | .glDrawArrays mode first count => some (.draw mode first count)
  | .glfwSwapBuffers _ => some .present
  | .glfwPollEvents => some .pollEvents
  | _ => none

/-- A world without its diagnostics: the info-log queries are dropped from the trace
and standard output is emptied. -/
def quiet (s : World) : World :=
  { s with trace := s.trace.filter (fun c => !c.isInfoLog), out := [] }

/-- The backend that differs only in reporting every compile and link status as
success (`GL_TRUE`). -/
def Backend.allGood (b : Backend) : Backend :=
  { b with shaderiv := fun _ _ => 1, programiv := fun _ _ => 1 }

/-- A backend for examples: window `1`, shaders `2` and `3`, program `4`, vertex array
`5`, buffer `6`, every status good; the keys and events are given. -/
def sampleBackend (getKey : Nat → Int → Int) (pollEvents : Nat → List Event) : Backend :=
  { createWindow := 1, loadGL := 1,
    createShader := fun kind => if kind = GL_VERTEX_SHADER then 2 else 3,
    createProgram := 4,
    shaderiv := fun _ _ => 1, shaderInfoLog := fun _ => "",
    programiv := fun _ _ => 1, programInfoLog := fun _ => "",
    genVertexArray := 5, genBuffer := 6,
    getKey := getKey, pollEvents := pollEvents }


/-- Escape is down from the start and no event ever arrives. -/
def escapeHeld : Backend :=
  sampleBackend (fun _ key => if key = GLFW_KEY_ESCAPE then GLFW_PRESS else 0) (fun _ => [])

/-- No key is pressed and the window is asked to close during the first poll. -/
def closeAtOnce : Backend :=
  sampleBackend (fun _ _ => 0) (fun _ => [.close])

/-- No key is pressed; the window is resized to 640x480 during the first poll and asked
to close during the second. -/
def closeAfterTwo : Backend :=
  sampleBackend (fun _ _ => 0)
    (fun tick => if tick = 0 then [.framebufferSize 640 480] else [.close])

/-- The window is created but the loader fails. -/
def loaderFails : Backend :=
  { sampleBackend (fun _ _ => 0) (fun _ => [.close]) with loadGL := 0 }

/-- Both shaders fail to compile and the program fails to link; the window is asked to
close during the first poll. -/
def allStatusesBad : Backend :=
  { sampleBackend (fun _ _ => 0) (fun _ => [.close]) with
    shaderiv := fun _ _ => 0, shaderInfoLog := fun _ => "0:1: unexpected token",
    programiv := fun _ _ => 0, programInfoLog := fun _ => "link failed" }

/-! ## The loop body -/

theorem emit_trace (c : Call) (s : World) : (emit c s).trace = s.trace ++ [c] := rfl

theorem emit_out (c : Call) (s : World) : (emit c s).out = s.out := rfl

theorem emit_shouldClose (c : Call) (s : World) : (emit c s).shouldClose = s.shouldClose := rfl

theorem emit_resizeCallback (c : Call) (s : World) :
    (emit c s).resizeCallback = s.resizeCallback := rfl

theorem emit_tick (c : Call) (s : World) : (emit c s).tick = s.tick := rfl

theorem emit_arrayBuffer (c : Call) (s : World) : (emit c s).arrayBuffer = s.arrayBuffer := rfl

theorem emit_draws (c : Call) (s : World) : (emit c s).draws = s.draws := rfl

theorem deliver_all (events : List Event) (s : World) :
    events.foldl (fun s e => deliver e s) s =
      { s with
        trace := s.trace ++ resizeCalls s.resizeCallback events,
        viewport := resizedViewport s.resizeCallback events s.viewport,
        shouldClose := s.shouldClose || decide (Event.close ∈ events) } := by
  induction events generalizing s with
  | nil => simp [resizeCalls, resizedViewport]
  | cons e events ih =>
    rw [List.foldl_cons, ih]
    cases e with
    | framebufferSize width height =>
      cases hcb : s.resizeCallback <;>
        simp [deliver, hcb, resizeCalls, resizedViewport, framebuffer_size_callback,
          glViewport, emit]
    | close => simp [deliver, resizeCalls, resizedViewport]

theorem frame_eq (b : Backend) (window shaderProgram VAO : Nat) (s : World) :
    frame b window shaderProgram VAO s =
      { s with
        trace := s.trace ++ frameCalls b window shaderProgram VAO s.resizeCallback s.tick,
        viewport := resizedViewport s.resizeCallback (b.pollEvents s.tick) s.viewport,
        shouldClose := (s.shouldClose || decide (b.getKey s.tick GLFW_KEY_ESCAPE = GLFW_PRESS))
          || decide (Event.close ∈ b.pollEvents s.tick),
        tick := s.tick + 1,
        program := shaderProgram,
        vertexArray := VAO,
        draws := s.draws ++ [⟨GL_TRIANGLES, 0, 3, shaderProgram, VAO⟩] } := by
  unfold frame glfwPollEvents
  simp only []
  rw [deliver_all]
  by_cases hkey : b.getKey s.tick GLFW_KEY_ESCAPE = GLFW_PRESS <;>
    simp [processInput, glfwGetKey, glfwSetWindowShouldClose, glClearColor, glClear,
      glUseProgram, glBindVertexArray, glDrawArrays, glfwSwapBuffers, emit, frameCalls, hkey] <;>
    norm_num

theorem frame_trace (b : Backend) (window shaderProgram VAO : Nat) (s : World) :
    (frame b window shaderProgram VAO s).trace =
      s.trace ++ frameCalls b window shaderProgram VAO s.resizeCallback s.tick := by
  rw [frame_eq]

theorem frame_shouldClose (b : Backend) (window shaderProgram VAO : Nat) (s : World) :
    (frame b window shaderProgram VAO s).shouldClose =
      ((s.shouldClose || decide (b.getKey s.tick GLFW_KEY_ESCAPE = GLFW_PRESS))
        || decide (Event.close ∈ b.pollEvents s.tick)) := by
  rw [frame_eq]

theorem frame_tick (b : Backend) (window shaderProgram VAO : Nat) (s : World) :
    (frame b window shaderProgram VAO s).tick = s.tick + 1 := by
  rw [frame_eq]

theorem frame_out (b : Backend) (window shaderProgram VAO : Nat) (s : World) :
    (frame b window shaderProgram VAO s).out = s.out := by
  rw [frame_eq]

theorem frame_resizeCallback (b : Backend) (window shaderProgram VAO : Nat) (s : World) :
    (frame b window shaderProgram VAO s).resizeCallback = s.resizeCallback := by
  rw [frame_eq]

theorem frame_arrayBuffer (b : Backend) (window shaderProgram VAO : Nat) (s : World) :
    (frame b window shaderProgram VAO s).arrayBuffer = s.arrayBuffer := by
  rw [frame_eq]

theorem frame_draws (b : Backend) (window shaderProgram VAO : Nat) (s : World) :
    (frame b window shaderProgram VAO s).draws =
      s.draws ++ [⟨GL_TRIANGLES, 0, 3, shaderProgram, VAO⟩] := by
  rw [frame_eq]

/-! ## The event loop -/

/-- What a run of the loop leaves behind: the frames it executed, in the order of
`iterationCalls`, one draw each. -/
theorem loop_spec (b : Backend) (window shaderProgram VAO : Nat) (fuel : Nat) (s : World) :
    ∃ n, n ≤ fuel ∧
      ((loop b window shaderProgram VAO fuel s).1 = true → n < fuel) ∧
      ((loop b window shaderProgram VAO fuel s).1 = false → n = fuel) ∧
      ((loop b window shaderProgram VAO fuel s).1 = true →
        (loop b window shaderProgram VAO fuel s).2.shouldClose = true) ∧
      (loop b window shaderProgram VAO fuel s).2.tick = s.tick + n ∧
      (loop b window shaderProgram VAO fuel s).2.trace =
        s.trace ++ iterationCalls b window shaderProgram VAO s.resizeCallback s.tick n ++
          (if (loop b window shaderProgram VAO fuel s).1 then
            [Call.glfwWindowShouldClose window] else []) ∧
      (loop b window shaderProgram VAO fuel s).2.out = s.out ∧
      (loop b window shaderProgram VAO fuel s).2.resizeCallback = s.resizeCallback ∧
      (loop b window shaderProgram VAO fuel s).2.arrayBuffer = s.arrayBuffer ∧
      (loop b window shaderProgram VAO fuel s).2.draws =
        s.draws ++ List.replicate n ⟨GL_TRIANGLES, 0, 3, shaderProgram, VAO⟩ := by
  induction fuel generalizing s with
  | zero => exact ⟨0, by simp [loop, iterationCalls]⟩
  | succ fuel ih =>
    by_cases hclose : s.shouldClose = true
    · exact ⟨0, by simp [loop, glfwWindowShouldClose, hclose, emit, iterationCalls]⟩
    · obtain ⟨n, hn, h1, h2, h3, h4, h5, h6, h7, h8, h9⟩ :=
        ih (frame b window shaderProgram VAO (emit (.glfwWindowShouldClose window) s))
      have hstep : loop b window shaderProgram VAO (fuel + 1) s =
          loop b window shaderProgram VAO fuel
            (frame b window shaderProgram VAO (emit (.glfwWindowShouldClose window) s)) := by
        simp [loop, glfwWindowShouldClose, hclose]
      rw [frame_tick] at h4
      rw [frame_trace, frame_resizeCallback, frame_tick] at h5
      rw [frame_out] at h6
      rw [frame_resizeCallback] at h7
      rw [frame_arrayBuffer] at h8
      rw [frame_draws] at h9
      simp only [emit_trace, emit_out, emit_resizeCallback, emit_tick, emit_arrayBuffer,
        emit_draws] at h4 h5 h6 h7 h8 h9
      refine ⟨n + 1, by omega, ?_, ?_, ?_, ?_, ?_, ?_, ?_, ?_, ?_⟩
      · rw [hstep]; intro h; have := h1 h; omega
      · rw [hstep]; intro h; have := h2 h; omega
      · rw [hstep]; exact h3
      · rw [hstep, h4]; omega
      · rw [hstep, h5]; simp [iterationCalls]
      · rw [hstep, h6]
      · rw [hstep, h7]
      · rw [hstep, h8]
      · rw [hstep, h9]; simp [List.replicate_succ]

/-- Once the loop has been left, more fuel changes nothing. -/
theorem loop_fuel (b : Backend) (window shaderProgram VAO : Nat) (fuel extra : Nat)
    (s : World) (h : (loop b window shaderProgram VAO fuel s).1 = true) :
    loop b window shaderProgram VAO (fuel + extra) s =
      loop b window shaderProgram VAO fuel s := by
  induction fuel generalizing s with
  | zero => simp [loop] at h
  | succ fuel ih =>
    by_cases hclose : s.shouldClose = true
    · rw [Nat.add_right_comm]
      simp [loop, glfwWindowShouldClose, hclose]
    · rw [Nat.add_right_comm]
      simp only [loop, glfwWindowShouldClose, hclose] at h ⊢
      exact ih _ h

/-- Frames in which neither Escape is pressed nor a close request arrives are all
executed, and the loop goes on from the world they leave. -/
theorem loop_open (b : Backend) (window shaderProgram VAO : Nat) (k : Nat) (s : World)
    (hs : s.shouldClose = false)
    (hkey : ∀ i, i < k → b.getKey (s.tick + i) GLFW_KEY_ESCAPE ≠ GLFW_PRESS)
    (hev : ∀ i, i < k → Event.close ∉ b.pollEvents (s.tick + i)) :
    ∃ s', s'.shouldClose = false ∧ s'.tick = s.tick + k ∧
      s'.resizeCallback = s.resizeCallback ∧
      ∀ fuel, loop b window shaderProgram VAO (fuel + k) s =
        loop b window shaderProgram VAO fuel s' := by
  induction k generalizing s with
  | zero => exact ⟨s, hs, rfl, rfl, fun _ => rfl⟩
  | succ k ih =>
    have hk0 := hkey 0 (by omega)
    have he0 := hev 0 (by omega)
    simp only [Nat.add_zero] at hk0 he0
    obtain ⟨s', h1, h2, h3, h4⟩ :=
      ih (frame b window shaderProgram VAO (emit (.glfwWindowShouldClose window) s))
        (by rw [frame_shouldClose]; simp [emit, hs, hk0, he0])
        (fun i hi => by
          rw [frame_tick, emit_tick]
          have := hkey (i + 1) (by omega)
          rwa [show s.tick + (i + 1) = s.tick + 1 + i by omega] at this)
        (fun i hi => by
          rw [frame_tick, emit_tick]
          have := hev (i + 1) (by omega)
          rwa [show s.tick + (i + 1) = s.tick + 1 + i by omega] at this)
    rw [frame_tick, emit_tick] at h2
    rw [frame_resizeCallback, emit_resizeCallback] at h3
    refine ⟨s', h1, by omega, h3, fun fuel => ?_⟩
    rw [← h4 fuel, ← Nat.add_assoc]
    simp [loop, glfwWindowShouldClose, hs]

/-- A frame in which Escape is pressed or a close request arrives is the last one. -/
theorem loop_last (b : Backend) (window shaderProgram VAO : Nat) (fuel : Nat) (s : World)
    (hs : s.shouldClose = false)
    (h : b.getKey s.tick GLFW_KEY_ESCAPE = GLFW_PRESS ∨ Event.close ∈ b.pollEvents s.tick) :
    loop b window shaderProgram VAO (fuel + 2) s =
      (true, emit (.glfwWindowShouldClose window)
        (frame b window shaderProgram VAO (emit (.glfwWindowShouldClose window) s))) := by
  have hflag : (frame b window shaderProgram VAO
      (emit (.glfwWindowShouldClose window) s)).shouldClose = true := by
    rw [frame_shouldClose]
    rcases h with h | h <;> simp [emit, h]
  simp [loop, glfwWindowShouldClose, hs, hflag]

/-- The loop is left at the latest one check after a frame in which Escape is pressed or
a close request arrives. -/
theorem loop_terminates (b : Backend) (window shaderProgram VAO : Nat) (k : Nat) (s : World)
    (h : b.getKey (s.tick + k) GLFW_KEY_ESCAPE = GLFW_PRESS ∨
      Event.close ∈ b.pollEvents (s.tick + k)) :
    (loop b window shaderProgram VAO (k + 2) s).1 = true := by
  induction k generalizing s with
  | zero =>
    by_cases hs : s.shouldClose = true
    · simp [loop, glfwWindowShouldClose, hs]
    · rw [loop_last b window shaderProgram VAO 0 s (by simpa using hs) (by simpa using h)]
  | succ k ih =>
    by_cases hs : s.shouldClose = true
    · simp [loop, glfwWindowShouldClose, hs]
    · have := ih (frame b window shaderProgram VAO (emit (.glfwWindowShouldClose window) s))
        (by
          rw [frame_tick, emit_tick]
          rwa [show s.tick + 1 + k = s.tick + (k + 1) by omega])
      rw [show k + 1 + 2 = (k + 2) + 1 by omega]
      simpa [loop, glfwWindowShouldClose, hs] using this

/-! ## `main` up to the event loop -/

theorem checkShaderSuccess_eq (b : Backend) (shader : Nat) (s : World) :
    checkShaderSuccess b shader s =
      { s with
        trace := s.trace ++ Call.glGetShaderiv shader GL_COMPILE_STATUS ::
          (if b.shaderiv shader GL_COMPILE_STATUS = 0 then
            [Call.glGetShaderInfoLog shader 512] else []),
        out := s.out ++
          (if b.shaderiv shader GL_COMPILE_STATUS = 0 then
            [diagnostic (b.shaderInfoLog shader)] else []) } := by
  by_cases h : b.shaderiv shader GL_COMPILE_STATUS = 0 <;>
    simp [checkShaderSuccess, glGetShaderiv, glGetShaderInfoLog, cout, emit, diagnostic, h,
      String.append_assoc]

theorem checkShaderProgramSuccess_eq (b : Backend) (shaderProgram : Nat) (s : World) :
    checkShaderProgramSuccess b shaderProgram s =
      { s with
        trace := s.trace ++ Call.glGetProgramiv shaderProgram GL_LINK_STATUS ::
          (if b.programiv shaderProgram GL_LINK_STATUS = 0 then
            [Call.glGetProgramInfoLog shaderProgram 512] else []),
        out := s.out ++
          (if b.programiv shaderProgram GL_LINK_STATUS = 0 then
            [diagnostic (b.programInfoLog shaderProgram)] else []) } := by
  by_cases h : b.programiv shaderProgram GL_LINK_STATUS = 0 <;>
    simp [checkShaderProgramSuccess, glGetProgramiv, glGetProgramInfoLog, cout, emit,
      diagnostic, h, String.append_assoc]

theorem main_eq (b : Backend) (fuel : Nat) (hw : b.createWindow ≠ 0) (hl : b.loadGL ≠ 0) :
    main b fuel =
      if (loop b b.createWindow b.createProgram b.genVertexArray fuel (atLoop b)).1 then
        (some 0, glfwTerminate
          (loop b b.createWindow b.createProgram b.genVertexArray fuel (atLoop b)).2)
      else
        (none, (loop b b.createWindow b.createProgram b.genVertexArray fuel (atLoop b)).2) := by
  have hsize : sizeof_vertices = 36 := by simp [sizeof_vertices, vertices, sizeof_float]
  have hstride : 3 * sizeof_float = 12 := by simp [sizeof_float]
  simp only [main, glfwInit, glfwWindowHint, glfwCreateWindow, hw, if_false,
    glfwMakeContextCurrent, gladLoadGLLoader, hl, glViewport, glfwSetFramebufferSizeCallback,
    glCreateShader, glShaderSource, glCompileShader, checkShaderSuccess_eq, glCreateProgram,
    glAttachShader, glLinkProgram, checkShaderProgramSuccess_eq, glDeleteShader,
    glGenVertexArrays, glGenBuffers, glBindVertexArray, glBindBuffer, glBufferData,
    glVertexAttribPointer, glEnableVertexAttribArray, emit, World.start, hsize, hstride]
  have hworld : ∀ s s', s = s' →
      (match loop b b.createWindow b.createProgram b.genVertexArray fuel s with
        | (left, s) => if left = true then (some (0 : Int), glfwTerminate s) else (none, s)) =
      if (loop b b.createWindow b.createProgram b.genVertexArray fuel s').1 then
        (some 0, glfwTerminate
          (loop b b.createWindow b.createProgram b.genVertexArray fuel s').2)
      else
        (none, (loop b b.createWindow b.createProgram b.genVertexArray fuel s').2) := by
    intro s s' h
    subst h
    rfl
  apply hworld
  simp [atLoop, setupCalls, setupOut]

theorem main_window_fails (b : Backend) (fuel : Nat) (hw : b.createWindow = 0) :
    main b fuel = (some (-1),
      { World.start with
        trace := [Call.glfwInit,
          Call.glfwWindowHint GLFW_CONTEXT_VERSION_MAJOR 3,
          Call.glfwWindowHint GLFW_CONTEXT_VERSION_MINOR 3,
          Call.glfwWindowHint GLFW_OPENGL_PROFILE GLFW_OPENGL_CORE_PROFILE,
          Call.glfwCreateWindow 800 600 "learnOpenGL",
          Call.glfwTerminate],
        out := ["Unable to create GLFW window\n"] }) := by
  simp [main, glfwInit, glfwWindowHint, glfwCreateWindow, hw, cout, glfwTerminate, emit,
    World.start]

theorem main_loader_fails (b : Backend) (fuel : Nat) (hw : b.createWindow ≠ 0)
    (hl : b.loadGL = 0) :
    main b fuel = (some (-1),
      { World.start with
        trace := [Call.glfwInit,
          Call.glfwWindowHint GLFW_CONTEXT_VERSION_MAJOR 3,
          Call.glfwWindowHint GLFW_CONTEXT_VERSION_MINOR 3,
          Call.glfwWindowHint GLFW_OPENGL_PROFILE GLFW_OPENGL_CORE_PROFILE,
          Call.glfwCreateWindow 800 600 "learnOpenGL",
          Call.glfwMakeContextCurrent b.createWindow,
          Call.gladLoadGLLoader],
        out := ["Unable to load GLAD\n"] }) := by
  simp [main, glfwInit, glfwWindowHint, glfwCreateWindow, hw, hl, cout,
    glfwMakeContextCurrent, gladLoadGLLoader, emit, World.start]

/-- The whole run once the window exists and the loader succeeded: the setup calls, the
iterations executed, and the last check with `glfwTerminate` when the loop was left. -/
theorem main_run (b : Backend) (fuel : Nat) (hw : b.createWindow ≠ 0) (hl : b.loadGL ≠ 0) :
    (main b fuel).2.trace =
      setupCalls b ++
        iterationCalls b b.createWindow b.createProgram b.genVertexArray
          (some b.createWindow) 0 (main b fuel).2.tick ++
        (if (main b fuel).1 = some 0 then
          [Call.glfwWindowShouldClose b.createWindow, Call.glfwTerminate] else []) ∧
    (main b fuel).2.draws =
      List.replicate (main b fuel).2.tick
        ⟨GL_TRIANGLES, 0, 3, b.createProgram, b.genVertexArray⟩ ∧
    (main b fuel).2.out = setupOut b ∧
    (main b fuel).2.arrayBuffer = 0 ∧
    (((main b fuel).1 = some 0 ∧ (main b fuel).2.shouldClose = true ∧
        (main b fuel).2.tick < fuel) ∨
      ((main b fuel).1 = none ∧ (main b fuel).2.tick = fuel)) := by
  obtain ⟨n, _, h1, h2, h3, h4, h5, h6, _, h8, h9⟩ :=
    loop_spec b b.createWindow b.createProgram b.genVertexArray fuel (atLoop b)
  rw [show (atLoop b).tick = 0 from rfl, Nat.zero_add] at h4
  rw [show (atLoop b).trace = setupCalls b from rfl,
    show (atLoop b).resizeCallback = some b.createWindow from rfl,
    show (atLoop b).tick = 0 from rfl] at h5
  rw [show (atLoop b).out = setupOut b from rfl] at h6
  rw [show (atLoop b).arrayBuffer = 0 from rfl] at h8
  rw [show (atLoop b).draws = [] from rfl, List.nil_append] at h9
  rw [main_eq b fuel hw hl]
  cases hleft : (loop b b.createWindow b.createProgram b.genVertexArray fuel (atLoop b)).1
  · have hn := h2 hleft
    simp only [hleft] at h5
    simp [h4, h5, h6, h8, h9, hn]
  · have hn := h1 hleft
    have hc := h3 hleft
    simp only [hleft] at h5
    simp [glfwTerminate, emit, h4, h5, h6, h8, h9, hn, hc]

/-- A run whose first frame sees Escape pressed or a close request has one frame. -/
theorem main_one_frame (b : Backend) (hw : b.createWindow ≠ 0) (hl : b.loadGL ≠ 0)
    (h : b.getKey 0 GLFW_KEY_ESCAPE = GLFW_PRESS ∨ Event.close ∈ b.pollEvents 0) :
    (main b 2).1 = some 0 ∧ (main b 2).2.tick = 1 := by
  have hlast := loop_last b b.createWindow b.createProgram b.genVertexArray 0 (atLoop b)
    rfl h
  simp only [Nat.zero_add] at hlast
  rw [main_eq b 2 hw hl, hlast]
  simp [glfwTerminate, emit_tick, frame_tick, show (atLoop b).tick = 0 from rfl]

/-! ## Filters of the trace -/

theorem resizeCalls_filter (q : Call → Bool)
    (hq : ∀ x y width height, q (.glViewport x y width height) = false)
    (callback : Option Nat) (events : List Event) :
    (resizeCalls callback events).filter q = [] := by
  induction events with
  | nil => simp [resizeCalls]
  | cons e events ih =>
    cases e <;> cases callback <;> simp [resizeCalls, hq, ih]

theorem iterationCalls_isDraw (b : Backend) (window shaderProgram VAO : Nat)
    (callback : Option Nat) (tick n : Nat) :
    (iterationCalls b window shaderProgram VAO callback tick n).filter Call.isDraw =
      List.replicate n (Call.glDrawArrays GL_TRIANGLES 0 3) := by
  induction n generalizing tick with
  | zero => simp [iterationCalls]
  | succ n ih =>
    have hr := resizeCalls_filter Call.isDraw (fun _ _ _ _ => rfl) callback (b.pollEvents tick)
    by_cases hkey : b.getKey tick GLFW_KEY_ESCAPE = GLFW_PRESS <;>
      simp [iterationCalls, frameCalls, List.filter_cons, Call.isDraw, hr, ih, hkey,
        List.replicate_succ]

theorem setupCalls_isDraw (b : Backend) : (setupCalls b).filter Call.isDraw = [] := by
  unfold setupCalls
  split_ifs <;> simp [List.filter_cons, Call.isDraw]

theorem resizeCalls_inLoop (callback : Option Nat) (events : List Event) :
    ∀ c ∈ resizeCalls callback events, c.inLoop = true := by
  induction events with
  | nil => simp [resizeCalls]
  | cons e events ih =>
    cases e <;> cases callback <;> simpa [resizeCalls, Call.inLoop] using ih

theorem frameCalls_inLoop (b : Backend) (window shaderProgram VAO : Nat)
    (callback : Option Nat) (tick : Nat) :
    ∀ c ∈ frameCalls b window shaderProgram VAO callback tick, c.inLoop = true := by
  have hr := resizeCalls_inLoop callback (b.pollEvents tick)
  intro c hc
  simp only [frameCalls, List.mem_append] at hc
  rcases hc with ((hc | hc) | hc) | hc
  · simp at hc; subst hc; rfl
  · split_ifs at hc
    · simp at hc; subst hc; rfl
    · simp at hc
  · simp at hc
    rcases hc with hc | hc | hc | hc | hc | hc | hc <;> subst hc <;> rfl
  · exact hr c hc

theorem iterationCalls_inLoop (b : Backend) (window shaderProgram VAO : Nat)
    (callback : Option Nat) (tick n : Nat) :
    ∀ c ∈ iterationCalls b window shaderProgram VAO callback tick n, c.inLoop = true := by
  induction n generalizing tick with
  | zero => simp [iterationCalls]
  | succ n ih =>
    intro c hc
    rw [iterationCalls] at hc
    simp only [List.mem_cons, List.mem_append] at hc
    rcases hc with (hc | hc) | hc
    · subst hc; rfl
    · exact frameCalls_inLoop b window shaderProgram VAO callback tick c hc
    · exact ih (tick + 1) c hc

/-- A kind of call that the loop never issues is found in the setup calls only. -/
theorem main_filter_setup (b : Backend) (fuel : Nat) (hw : b.createWindow ≠ 0)
    (hl : b.loadGL ≠ 0) (q : Call → Bool) (hq : ∀ c, c.inLoop = true → q c = false) :
    (main b fuel).2.trace.filter q = (setupCalls b).filter q := by
  have hiter : (iterationCalls b b.createWindow b.createProgram b.genVertexArray
      (some b.createWindow) 0 (main b fuel).2.tick).filter q = [] := by
    rw [List.filter_eq_nil_iff]
    intro c hc
    simp [hq c (iterationCalls_inLoop _ _ _ _ _ _ _ c hc)]
  rw [(main_run b fuel hw hl).1, List.filter_append, List.filter_append, hiter]
  split_ifs <;> simp [List.filter_cons, hq _ (rfl : (Call.glfwTerminate).inLoop = true),
    hq _ (rfl : (Call.glfwWindowShouldClose b.createWindow).inLoop = true)]

theorem setupCalls_isBufferData (b : Backend) :
    (setupCalls b).filter Call.isBufferData =
      [Call.glBufferData GL_ARRAY_BUFFER 36 vertices GL_STATIC_DRAW] := by
  unfold setupCalls
  split_ifs <;> simp [List.filter_cons, Call.isBufferData]

theorem setupCalls_isVertexAttribPointer (b : Backend) :
    (setupCalls b).filter Call.isVertexAttribPointer =
      [Call.glVertexAttribPointer 0 3 GL_FLOAT GL_FALSE 12 0] := by
  unfold setupCalls
  split_ifs <;> simp [List.filter_cons, Call.isVertexAttribPointer]

theorem setupCalls_isGenBuffers (b : Backend) :
    (setupCalls b).filter Call.isGenBuffers = [Call.glGenBuffers 1] := by
  unfold setupCalls
  split_ifs <;> simp [List.filter_cons, Call.isGenBuffers]

theorem setupCalls_isBindBuffer (b : Backend) :
    (setupCalls b).filter Call.isBindBuffer =
      [Call.glBindBuffer GL_ARRAY_BUFFER b.genBuffer, Call.glBindBuffer GL_ARRAY_BUFFER 0] := by
  unfold setupCalls
  split_ifs <;> simp [List.filter_cons, Call.isBindBuffer]

theorem vertices_eq : vertices = [-1/2, -1/2, 0, 1/2, -1/2, 0, 0, 1/2, 0] := by
  norm_num [vertices]

/-! ## Length of the run -/

/-- When the frames before the `n`-th neither see Escape nor a close request and the
`n`-th sees one of them, the run has exactly `n` frames and returns 0. -/
theorem main_closes_after (b : Backend) (n : Nat) (hw : b.createWindow ≠ 0)
    (hl : b.loadGL ≠ 0) (hn : 0 < n)
    (hkey : ∀ i, i + 1 < n → b.getKey i GLFW_KEY_ESCAPE ≠ GLFW_PRESS)
    (hopen : ∀ i, i + 1 < n → Event.close ∉ b.pollEvents i)
    (hclose : b.getKey (n - 1) GLFW_KEY_ESCAPE = GLFW_PRESS ∨
      Event.close ∈ b.pollEvents (n - 1)) :
    (main b (n + 1)).1 = some 0 ∧ (main b (n + 1)).2.tick = n ∧
    (∀ fuel, n < fuel → main b fuel = main b (n + 1)) ∧
    (∀ fuel, fuel ≤ n → (main b fuel).1 = none) := by
  have h0 : (atLoop b).tick = 0 := rfl
  obtain ⟨s', h1, h2, _, h4⟩ :=
    loop_open b b.createWindow b.createProgram b.genVertexArray (n - 1) (atLoop b) rfl
      (fun i hi => by rw [h0, Nat.zero_add]; exact hkey i (by omega))
      (fun i hi => by rw [h0, Nat.zero_add]; exact hopen i (by omega))
  rw [h0, Nat.zero_add] at h2
  have hlast := loop_last b b.createWindow b.createProgram b.genVertexArray 0 s' h1
    (by rw [h2]; exact hclose)
  have hloop : loop b b.createWindow b.createProgram b.genVertexArray (n + 1) (atLoop b) =
      (true, emit (.glfwWindowShouldClose b.createWindow)
        (frame b b.createWindow b.createProgram b.genVertexArray
          (emit (.glfwWindowShouldClose b.createWindow) s'))) := by
    rw [← hlast, ← h4 (0 + 2)]
    congr 1
    omega
  have hcode : (main b (n + 1)).1 = some 0 := by
    rw [main_eq b (n + 1) hw hl, hloop]
    simp
  have htick : (main b (n + 1)).2.tick = n := by
    rw [main_eq b (n + 1) hw hl, hloop]
    simp only [if_true, glfwTerminate, emit_tick, frame_tick, h2]
    omega
  refine ⟨hcode, htick, ?_, ?_⟩
  · intro fuel hfuel
    have hleft : (loop b b.createWindow b.createProgram b.genVertexArray (n + 1)
        (atLoop b)).1 = true := by rw [hloop]
    have := loop_fuel b b.createWindow b.createProgram b.genVertexArray (n + 1)
      (fuel - (n + 1)) (atLoop b) hleft
    rw [show n + 1 + (fuel - (n + 1)) = fuel by omega] at this
    rw [main_eq b fuel hw hl, main_eq b (n + 1) hw hl, this]
  · intro fuel hfuel
    rcases (main_run b fuel hw hl).2.2.2.2 with ⟨hc, _, ht⟩ | ⟨hc, _⟩
    · exfalso
      have hleft : (loop b b.createWindow b.createProgram b.genVertexArray fuel
          (atLoop b)).1 = true := by
        rw [main_eq b fuel hw hl] at hc
        by_contra hne
        simp [hne] at hc
      have := loop_fuel b b.createWindow b.createProgram b.genVertexArray fuel
        (n + 1 - fuel) (atLoop b) hleft
      rw [show fuel + (n + 1 - fuel) = n + 1 by omega] at this
      have hsame : main b (n + 1) = main b fuel := by
        rw [main_eq b fuel hw hl, main_eq b (n + 1) hw hl, this]
      rw [hsame] at htick
      omega
    · exact hc

/-! ## Runs that differ in the reported statuses -/

theorem frameCalls_quiet (b : Backend) (window shaderProgram VAO : Nat)
    (callback : Option Nat) (tick : Nat) :
    (frameCalls b window shaderProgram VAO callback tick).filter (fun c => !c.isInfoLog) =
      frameCalls b window shaderProgram VAO callback tick := by
  rw [List.filter_eq_self]
  intro c hc
  have := frameCalls_inLoop b window shaderProgram VAO callback tick c hc
  cases c <;> simp_all [Call.inLoop, Call.isInfoLog]

theorem frame_quiet (b : Backend) (window shaderProgram VAO : Nat) (s : World) :
    frame b.allGood window shaderProgram VAO (quiet s) =
      quiet (frame b window shaderProgram VAO s) := by
  rw [frame_eq, frame_eq]
  have h := frameCalls_quiet b window shaderProgram VAO s.resizeCallback s.tick
  simp only [quiet, List.filter_append, h]
  rfl

theorem loop_quiet (b : Backend) (window shaderProgram VAO : Nat) (fuel : Nat) (s : World) :
    loop b.allGood window shaderProgram VAO fuel (quiet s) =
      ((loop b window shaderProgram VAO fuel s).1,
        quiet (loop b window shaderProgram VAO fuel s).2) := by
  induction fuel generalizing s with
  | zero => rfl
  | succ fuel ih =>
    have hemit : emit (.glfwWindowShouldClose window) (quiet s) =
        quiet (emit (.glfwWindowShouldClose window) s) := by
      simp [quiet, emit, Call.isInfoLog]
    by_cases hclose : s.shouldClose = true
    · have hq : (quiet s).shouldClose = true := hclose
      simp [loop, glfwWindowShouldClose, hclose, hq, hemit]
    · have hf : s.shouldClose = false := by simpa using hclose
      have hq : (quiet s).shouldClose = false := hf
      simp [loop, glfwWindowShouldClose, hf, hq, hemit, frame_quiet, ih]

theorem atLoop_quiet (b : Backend) : quiet (atLoop b) = atLoop b.allGood := by
  have h10 : ¬ ((1 : Int) = 0) := by decide
  simp only [quiet, atLoop, setupCalls, setupOut, Backend.allGood, h10, if_false]
  split_ifs <;> simp [List.filter_cons, Call.isInfoLog]

/-! ## Order of the buffer calls -/

theorem setupCalls_buffer_order (b : Backend) :
    (setupCalls b).filter (fun c =>
        c.isGenBuffers || c.isBindBuffer || c.isBufferData || c.isVertexAttribPointer) =
      [Call.glGenBuffers 1,
        Call.glBindBuffer GL_ARRAY_BUFFER b.genBuffer,
        Call.glBufferData GL_ARRAY_BUFFER 36 vertices GL_STATIC_DRAW,
        Call.glVertexAttribPointer 0 3 GL_FLOAT GL_FALSE 12 0,
        Call.glBindBuffer GL_ARRAY_BUFFER 0] := by
  unfold setupCalls
  split_ifs <;>
    simp [List.filter_cons, Call.isGenBuffers, Call.isBindBuffer, Call.isBufferData,
      Call.isVertexAttribPointer]

theorem setupCalls_no_check (b : Backend) (window : Nat) :
    Call.glfwWindowShouldClose window ∉ setupCalls b := by
  unfold setupCalls
  split_ifs <;> simp

theorem iterationCalls_bind_draw (b : Backend) (window shaderProgram VAO : Nat)
    (callback : Option Nat) (tick n : Nat) :
    (iterationCalls b window shaderProgram VAO callback tick n).filter
        (fun c => c.isBindBuffer || c.isBindVertexArray || c.isDraw) =
      (List.replicate n
        [Call.glBindVertexArray VAO, Call.glDrawArrays GL_TRIANGLES 0 3]).flatten := by
  induction n generalizing tick with
  | zero => simp [iterationCalls]
  | succ n ih =>
    have hr := resizeCalls_filter
      (fun c => c.isBindBuffer || c.isBindVertexArray || c.isDraw) (fun _ _ _ _ => rfl)
      callback (b.pollEvents tick)
    rw [iterationCalls, List.filter_append, ih, frameCalls, List.filter_cons,
      List.filter_append, hr, List.append_nil, List.replicate_succ, List.flatten_cons]
    by_cases hkey : b.getKey tick GLFW_KEY_ESCAPE = GLFW_PRESS <;>
      simp [List.filter_cons, Call.isBindBuffer, Call.isBindVertexArray, Call.isDraw, hkey]

/-- Whatever follows a loop condition check in the run was issued by the loop. -/
theorem main_after_check (b : Backend) (fuel : Nat) (hw : b.createWindow ≠ 0)
    (hl : b.loadGL ≠ 0) (before after : List Call)
    (h : (main b fuel).2.trace =
      before ++ Call.glfwWindowShouldClose b.createWindow :: after) :
    ∀ c ∈ after, c.inLoop = true := by
  have htrace := (main_run b fuel hw hl).1
  have hrest : ∀ c ∈ iterationCalls b b.createWindow b.createProgram b.genVertexArray
      (some b.createWindow) 0 (main b fuel).2.tick ++
      (if (main b fuel).1 = some 0 then
        [Call.glfwWindowShouldClose b.createWindow, Call.glfwTerminate] else []),
      c.inLoop = true := by
    intro c hc
    rw [List.mem_append] at hc
    rcases hc with hc | hc
    · exact iterationCalls_inLoop _ _ _ _ _ _ _ c hc
    · split_ifs at hc
      · simp at hc
        rcases hc with hc | hc <;> subst hc <;> rfl
      · simp at hc
  rw [h, List.append_assoc, List.append_eq_append_iff] at htrace
  rcases htrace with ⟨mid, hsetup, hmid⟩ | ⟨mid, _, hmid⟩
  · cases mid with
    | nil =>
      simp only [List.nil_append] at hmid
      intro c hc
      exact hrest c (by rw [← hmid]; simp [hc])
    | cons m mid =>
      simp only [List.cons_append, List.cons.injEq] at hmid
      exfalso
      apply setupCalls_no_check b b.createWindow
      rw [hsetup, ← hmid.1]
      simp
  · intro c hc
    exact hrest c (by rw [hmid]; simp [hc])

/-! ## The claims -/

/-- C1: whatever the viewport was, after `framebuffer_size_callback` runs with width `W`
and height `H` the viewport is `(0, 0, W, H)`; the callback issues the single call
`glViewport(0, 0, W, H)`, and it is what a resize event runs once it is installed. -/
theorem framebuffer_size_callback_viewport (s : World) (window : Nat) (W H : Int) :
    (framebuffer_size_callback window W H s).viewport = (0, 0, W, H) ∧
    (framebuffer_size_callback window W H s).trace = s.trace ++ [Call.glViewport 0 0 W H] ∧
    (deliver (.framebufferSize W H) (glfwSetFramebufferSizeCallback window s)).viewport =
      (0, 0, W, H) := by
  simp [framebuffer_size_callback, glViewport, emit, deliver, glfwSetFramebufferSizeCallback]

/-- C4: every executed loop body issues exactly the calls key check (with the close
request when Escape is down), clear colour and clear, use program, bind vertex array,
one `glDrawArrays(GL_TRIANGLES, 0, 3)`, swap buffers, poll events (with the viewport
calls of the resize callback), in this order; read as steps this is input poll, clear,
bind program, bind geometry, draw, present, poll events, each once. -/
theorem frame_steps_in_order (b : Backend) (window shaderProgram VAO : Nat) (s : World) :
    (frame b window shaderProgram VAO s).trace =
      s.trace ++
        ([Call.glfwGetKey window GLFW_KEY_ESCAPE] ++
          (if b.getKey s.tick GLFW_KEY_ESCAPE = GLFW_PRESS then
            [Call.glfwSetWindowShouldClose window true] else []) ++
          [Call.glClearColor 0 0 0 1, Call.glClear GL_COLOR_BUFFER_BIT,
            Call.glUseProgram shaderProgram, Call.glBindVertexArray VAO,
            Call.glDrawArrays GL_TRIANGLES 0 3, Call.glfwSwapBuffers window,
            Call.glfwPollEvents] ++
          resizeCalls s.resizeCallback (b.pollEvents s.tick)) ∧
    ((frame b window shaderProgram VAO s).trace.drop s.trace.length).filterMap Call.step =
      [Step.inputPoll GLFW_KEY_ESCAPE, Step.clearColorBuffer, Step.bindProgram shaderProgram,
        Step.bindGeometry VAO, Step.draw GL_TRIANGLES 0 3, Step.present, Step.pollEvents] := by
  have hr : ∀ (callback : Option Nat) (events : List Event),
      (resizeCalls callback events).filterMap Call.step = [] := by
    intro callback events
    induction events with
    | nil => simp [resizeCalls]
    | cons e events ih =>
      cases e <;> cases callback <;> simp_all [resizeCalls, Call.step]
  refine ⟨by rw [frame_trace]; rfl, ?_⟩
  rw [frame_trace, List.drop_left]
  by_cases hkey : b.getKey s.tick GLFW_KEY_ESCAPE = GLFW_PRESS <;>
    simp [frameCalls, List.filterMap_append, List.filterMap_cons, Call.step, hr, hkey]

/-- C6: the run uploads once, 36 bytes holding the nine floats
`-0.5, -0.5, 0, 0.5, -0.5, 0, 0, 0.5, 0`, and declares one attribute layout of three float
components with stride 12 and offset 0, so that the upload holds exactly three
vertices. -/
theorem vertex_upload (b : Backend) (fuel : Nat) (hw : b.createWindow ≠ 0)
    (hl : b.loadGL ≠ 0) :
    (main b fuel).2.trace.filter Call.isBufferData =
      [Call.glBufferData GL_ARRAY_BUFFER 36 [-1/2, -1/2, 0, 1/2, -1/2, 0, 0, 1/2, 0]
        GL_STATIC_DRAW] ∧
    (main b fuel).2.trace.filter Call.isVertexAttribPointer =
      [Call.glVertexAttribPointer 0 3 GL_FLOAT GL_FALSE 12 0] ∧
    vertices.length = 9 ∧ sizeof_vertices = 36 ∧ 3 * sizeof_float = 12 ∧
    sizeof_vertices = 3 * (3 * sizeof_float) := by
  refine ⟨?_, ?_, ?_, ?_, ?_, ?_⟩
  · rw [main_filter_setup b fuel hw hl _ (by intro c hc; cases c <;> simp_all [Call.inLoop,
      Call.isBufferData]), setupCalls_isBufferData, vertices_eq]
  · rw [main_filter_setup b fuel hw hl _ (by intro c hc; cases c <;> simp_all [Call.inLoop,
      Call.isVertexAttribPointer]), setupCalls_isVertexAttribPointer]
  all_goals simp [sizeof_vertices, vertices, sizeof_float]

/-- C8: each status check queries the status once; exactly when the status is zero it
also asks for the info log with a maximum length of 512 and writes one diagnostic to
standard output, and otherwise it asks for no log and writes nothing. -/
theorem status_check_diagnostics (b : Backend) (shader shaderProgram : Nat) (s : World) :
    ((checkShaderSuccess b shader s).out ≠ s.out ↔ b.shaderiv shader GL_COMPILE_STATUS = 0) ∧
    (checkShaderSuccess b shader s).trace =
      s.trace ++ Call.glGetShaderiv shader GL_COMPILE_STATUS ::
        (if b.shaderiv shader GL_COMPILE_STATUS = 0 then
          [Call.glGetShaderInfoLog shader 512] else []) ∧
    (checkShaderSuccess b shader s).out =
      s.out ++ (if b.shaderiv shader GL_COMPILE_STATUS = 0 then
        [diagnostic (b.shaderInfoLog shader)] else []) ∧
    ((checkShaderProgramSuccess b shaderProgram s).out ≠ s.out ↔
      b.programiv shaderProgram GL_LINK_STATUS = 0) ∧
    (checkShaderProgramSuccess b shaderProgram s).trace =
      s.trace ++ Call.glGetProgramiv shaderProgram GL_LINK_STATUS ::
        (if b.programiv shaderProgram GL_LINK_STATUS = 0 then
          [Call.glGetProgramInfoLog shaderProgram 512] else []) ∧
    (checkShaderProgramSuccess b shaderProgram s).out =
      s.out ++ (if b.programiv shaderProgram GL_LINK_STATUS = 0 then
        [diagnostic (b.programInfoLog shaderProgram)] else []) := by
  rw [checkShaderSuccess_eq, checkShaderProgramSuccess_eq]
  by_cases h1 : b.shaderiv shader GL_COMPILE_STATUS = 0 <;>
    by_cases h2 : b.programiv shaderProgram GL_LINK_STATUS = 0 <;> simp [h1, h2]

/-- C2, counterexample: with Escape held from the start the run has one frame, and in
it `glDrawArrays` is issued after the key press was detected and the close flag set. -/
theorem escape_frame_still_draws :
    (main escapeHeld 2).1 = some 0 ∧
    (main escapeHeld 2).2.trace =
      setupCalls escapeHeld ++
        [Call.glfwWindowShouldClose 1, Call.glfwGetKey 1 GLFW_KEY_ESCAPE,
          Call.glfwSetWindowShouldClose 1 true, Call.glClearColor 0 0 0 1,
          Call.glClear GL_COLOR_BUFFER_BIT, Call.glUseProgram 4, Call.glBindVertexArray 5,
          Call.glDrawArrays GL_TRIANGLES 0 3, Call.glfwSwapBuffers 1, Call.glfwPollEvents,
          Call.glfwWindowShouldClose 1, Call.glfwTerminate] ∧
    ∃ before after, (main escapeHeld 2).2.trace =
        before ++ Call.glfwSetWindowShouldClose 1 true :: after ∧
      Call.glDrawArrays GL_TRIANGLES 0 3 ∈ after := by
  have hw : escapeHeld.createWindow ≠ 0 := by decide
  have hl : escapeHeld.loadGL ≠ 0 := by decide
  have hone := main_one_frame escapeHeld hw hl (Or.inl rfl)
  have htrace := (main_run escapeHeld 2 hw hl).1
  rw [hone.2] at htrace
  simp only [hone.1, if_true] at htrace
  have hframe : iterationCalls escapeHeld escapeHeld.createWindow escapeHeld.createProgram
      escapeHeld.genVertexArray (some escapeHeld.createWindow) 0 1 =
      [Call.glfwWindowShouldClose 1, Call.glfwGetKey 1 GLFW_KEY_ESCAPE,
        Call.glfwSetWindowShouldClose 1 true, Call.glClearColor 0 0 0 1,
        Call.glClear GL_COLOR_BUFFER_BIT, Call.glUseProgram 4, Call.glBindVertexArray 5,
        Call.glDrawArrays GL_TRIANGLES 0 3, Call.glfwSwapBuffers 1, Call.glfwPollEvents] := by
    simp [iterationCalls, frameCalls, resizeCalls, escapeHeld, sampleBackend]
  rw [hframe] at htrace
  refine ⟨hone.1, by rw [htrace]; simp [escapeHeld, sampleBackend], ?_⟩
  refine ⟨setupCalls escapeHeld ++
      [Call.glfwWindowShouldClose 1, Call.glfwGetKey 1 GLFW_KEY_ESCAPE],
    [Call.glClearColor 0 0 0 1, Call.glClear GL_COLOR_BUFFER_BIT, Call.glUseProgram 4,
      Call.glBindVertexArray 5, Call.glDrawArrays GL_TRIANGLES 0 3, Call.glfwSwapBuffers 1,
      Call.glfwPollEvents, Call.glfwWindowShouldClose 1, Call.glfwTerminate], ?_, by simp⟩
  rw [htrace]
  simp [escapeHeld, sampleBackend]

/-- C2, as amended: when a frame is executed in which `processInput` finds Escape
pressed, the close flag is set by `processInput` itself; the rest of that frame still
runs, so exactly one more draw call is issued, and the next condition check leaves the
loop before any further frame. -/
theorem escape_closes_loop (b : Backend) (window shaderProgram VAO : Nat) (s : World)
    (fuel : Nat) (hopen : s.shouldClose = false)
    (hesc : b.getKey s.tick GLFW_KEY_ESCAPE = GLFW_PRESS) :
    (processInput b window (glfwWindowShouldClose window s).2).shouldClose = true ∧
    (loop b window shaderProgram VAO (fuel + 2) s).1 = true ∧
    (loop b window shaderProgram VAO (fuel + 2) s).2.tick = s.tick + 1 ∧
    (loop b window shaderProgram VAO (fuel + 2) s).2.draws =
      s.draws ++ [⟨GL_TRIANGLES, 0, 3, shaderProgram, VAO⟩] ∧
    (loop b window shaderProgram VAO (fuel + 2) s).2.trace =
      s.trace ++
        [Call.glfwWindowShouldClose window, Call.glfwGetKey window GLFW_KEY_ESCAPE,
          Call.glfwSetWindowShouldClose window true, Call.glClearColor 0 0 0 1,
          Call.glClear GL_COLOR_BUFFER_BIT, Call.glUseProgram shaderProgram,
          Call.glBindVertexArray VAO, Call.glDrawArrays GL_TRIANGLES 0 3,
          Call.glfwSwapBuffers window, Call.glfwPollEvents] ++
        resizeCalls s.resizeCallback (b.pollEvents s.tick) ++
        [Call.glfwWindowShouldClose window] := by
  rw [loop_last b window shaderProgram VAO fuel s hopen (Or.inl hesc)]
  refine ⟨?_, rfl, ?_, ?_, ?_⟩
  · simp [processInput, glfwWindowShouldClose, glfwGetKey, glfwSetWindowShouldClose, emit,
      hesc]
  · simp only [emit_tick, frame_tick]
  · simp only [emit_draws, frame_draws]
  · simp [emit_trace, frame_trace, emit_resizeCallback, emit_tick, frameCalls, hesc]

theorem escape_closes_loop_witness :
    (atLoop escapeHeld).shouldClose = false ∧
    escapeHeld.getKey (atLoop escapeHeld).tick GLFW_KEY_ESCAPE = GLFW_PRESS ∧
    (loop escapeHeld 1 4 5 2 (atLoop escapeHeld)).1 = true ∧
    (loop escapeHeld 1 4 5 2 (atLoop escapeHeld)).2.draws = [⟨GL_TRIANGLES, 0, 3, 4, 5⟩] :=
  ⟨rfl, rfl, (escape_closes_loop escapeHeld 1 4 5 (atLoop escapeHeld) 0 rfl rfl).2.1,
    (escape_closes_loop escapeHeld 1 4 5 (atLoop escapeHeld) 0 rfl rfl).2.2.2.1⟩

/-- C3: `main` returns -1 exactly when window creation returns `NULL` or the loader
reports failure; any other run has either not left the loop yet or returns 0 with the
close flag set; and such a run does return once a frame has seen Escape pressed or a
close request. -/
theorem main_exit_status (b : Backend) (fuel : Nat) :
    ((main b fuel).1 = some (-1) ↔ (b.createWindow = 0 ∨ b.loadGL = 0)) ∧
    ((main b fuel).1 = some (-1) ∨ (main b fuel).1 = none ∨
      ((main b fuel).1 = some 0 ∧ (main b fuel).2.shouldClose = true)) ∧
    (∀ k, (b.getKey k GLFW_KEY_ESCAPE = GLFW_PRESS ∨ Event.close ∈ b.pollEvents k) →
      k + 2 ≤ fuel → (main b fuel).1 ≠ none) := by
  by_cases hw : b.createWindow = 0
  · simp [main_window_fails b fuel hw, hw]
  · by_cases hl : b.loadGL = 0
    · simp [main_loader_fails b fuel hw hl, hl]
    · have hrun := (main_run b fuel hw hl).2.2.2.2
      refine ⟨?_, ?_, ?_⟩
      · rcases hrun with ⟨hc, _, _⟩ | ⟨hc, _⟩ <;> simp [hc, hw, hl]
      · rcases hrun with ⟨hc, hs, _⟩ | ⟨hc, _⟩
        · exact Or.inr (Or.inr ⟨hc, hs⟩)
        · exact Or.inr (Or.inl hc)
      · intro k hk hfuel
        have hleft := loop_terminates b b.createWindow b.createProgram b.genVertexArray k
          (atLoop b) (by rw [show (atLoop b).tick = 0 from rfl, Nat.zero_add]; exact hk)
        have hmore := loop_fuel b b.createWindow b.createProgram b.genVertexArray (k + 2)
          (fuel - (k + 2)) (atLoop b) hleft
        rw [show k + 2 + (fuel - (k + 2)) = fuel by omega] at hmore
        rw [main_eq b fuel hw hl, hmore, hleft]
        simp

theorem main_exit_status_witness :
    ((main closeAtOnce 2).1 = some 0 ∧ (main closeAtOnce 2).2.shouldClose = true) ∧
    (main loaderFails 5).1 = some (-1) := by
  have h := main_exit_status closeAtOnce 2
  have hnot : ¬ (main closeAtOnce 2).1 = some (-1) := fun hc => by
    rcases h.1.1 hc with hc | hc
    · exact absurd hc (by decide)
    · exact absurd hc (by decide)
  have hsome := h.2.2 0 (Or.inr (by simp [closeAtOnce, sampleBackend])) (by decide)
  refine ⟨?_, (main_exit_status loaderFails 5).1.2 (Or.inr rfl)⟩
  rcases h.2.1 with hc | hc | hc
  · exact absurd hc hnot
  · exact absurd hc hsome
  · exact hc

/-- C5: when setup succeeds, no key is pressed and the close request arrives during the
`n`-th frame, the run returns after exactly `n` frames; its trace holds exactly `n` draw
calls, all `glDrawArrays(GL_TRIANGLES, 0, 3)`, one in each iteration, and each was
issued with the program returned by `glCreateProgram` (linked during setup) current and
the vertex array generated during setup bound. -/
theorem draw_call_per_frame (b : Backend) (n : Nat) (hw : b.createWindow ≠ 0)
    (hl : b.loadGL ≠ 0) (hn : 0 < n)
    (hkey : ∀ i key, b.getKey i key ≠ GLFW_PRESS)
    (hopen : ∀ i, i + 1 < n → Event.close ∉ b.pollEvents i)
    (hclose : Event.close ∈ b.pollEvents (n - 1)) :
    (main b (n + 1)).1 = some 0 ∧
    (∀ fuel, n < fuel → main b fuel = main b (n + 1)) ∧
    (∀ fuel, fuel ≤ n → (main b fuel).1 = none) ∧
    (main b (n + 1)).2.tick = n ∧
    (main b (n + 1)).2.trace =
      setupCalls b ++
        iterationCalls b b.createWindow b.createProgram b.genVertexArray
          (some b.createWindow) 0 n ++
        [Call.glfwWindowShouldClose b.createWindow, Call.glfwTerminate] ∧
    (main b (n + 1)).2.trace.filter Call.isDraw =
      List.replicate n (Call.glDrawArrays GL_TRIANGLES 0 3) ∧
    (main b (n + 1)).2.draws =
      List.replicate n ⟨GL_TRIANGLES, 0, 3, b.createProgram, b.genVertexArray⟩ ∧
    Call.glLinkProgram b.createProgram ∈ setupCalls b ∧
    Call.glGenVertexArrays 1 ∈ setupCalls b := by
  obtain ⟨hcode, htick, hfuel, hshort⟩ := main_closes_after b n hw hl hn
    (fun i _ => hkey i GLFW_KEY_ESCAPE) hopen (Or.inr hclose)
  obtain ⟨htrace, hdraws, _, _, _⟩ := main_run b (n + 1) hw hl
  rw [htick] at htrace hdraws
  simp only [hcode, if_true] at htrace
  refine ⟨hcode, hfuel, hshort, htick, htrace, ?_, hdraws, ?_, ?_⟩
  · rw [htrace, List.filter_append, List.filter_append, setupCalls_isDraw,
      iterationCalls_isDraw]
    simp [List.filter_cons, Call.isDraw]
  · unfold setupCalls; simp
  · unfold setupCalls; simp

theorem draw_call_per_frame_witness :
    (main closeAfterTwo 3).1 = some 0 ∧
    (main closeAfterTwo 3).2.tick = 2 ∧
    (main closeAfterTwo 3).2.trace.filter Call.isDraw =
      [Call.glDrawArrays GL_TRIANGLES 0 3, Call.glDrawArrays GL_TRIANGLES 0 3] ∧
    (main closeAfterTwo 3).2.draws =
      [⟨GL_TRIANGLES, 0, 3, 4, 5⟩, ⟨GL_TRIANGLES, 0, 3, 4, 5⟩] := by
  have h := draw_call_per_frame closeAfterTwo 2 (by decide) (by decide) (by decide)
    (fun _ _ => by simp [closeAfterTwo, sampleBackend, GLFW_PRESS])
    (fun i hi => by
      have : i = 0 := by omega
      subst this
      simp [closeAfterTwo, sampleBackend])
    (by simp [closeAfterTwo, sampleBackend])
  exact ⟨h.1, h.2.2.2.1, h.2.2.2.2.2.1, h.2.2.2.2.2.2.1⟩

theorem vertex_upload_witness :
    closeAtOnce.createWindow ≠ 0 ∧ closeAtOnce.loadGL ≠ 0 ∧
    (main closeAtOnce 2).2.trace.filter Call.isBufferData =
      [Call.glBufferData GL_ARRAY_BUFFER 36 [-1/2, -1/2, 0, 1/2, -1/2, 0, 0, 1/2, 0]
        GL_STATIC_DRAW] ∧
    (main closeAtOnce 2).2.trace.filter Call.isVertexAttribPointer =
      [Call.glVertexAttribPointer 0 3 GL_FLOAT GL_FALSE 12 0] :=
  ⟨by decide, by decide, (vertex_upload closeAtOnce 2 (by decide) (by decide)).1,
    (vertex_upload closeAtOnce 2 (by decide) (by decide)).2.1⟩

/-- C7: once the window exists and the loader succeeded, whatever the compile and link
statuses are the run goes on exactly as the run in which all three are success: same
exit status after the same number of checks, and the same calls and state once the
info-log queries are dropped from the trace and standard output is ignored. -/
theorem statuses_do_not_stop (b : Backend) (fuel : Nat) (hw : b.createWindow ≠ 0)
    (hl : b.loadGL ≠ 0) :
    (main b fuel).1 = (main b.allGood fuel).1 ∧
    (main b fuel).2.trace.filter (fun c => !c.isInfoLog) = (main b.allGood fuel).2.trace ∧
    (main b.allGood fuel).2.trace.filter Call.isInfoLog = [] ∧
    (main b.allGood fuel).2.out = [] ∧
    quiet (main b fuel).2 = (main b.allGood fuel).2 := by
  have hq := loop_quiet b b.createWindow b.createProgram b.genVertexArray fuel (atLoop b)
  rw [atLoop_quiet] at hq
  have hmain : (main b fuel).1 = (main b.allGood fuel).1 ∧
      quiet (main b fuel).2 = (main b.allGood fuel).2 := by
    rw [main_eq b fuel hw hl, main_eq b.allGood fuel hw hl]
    simp only [show b.allGood.createWindow = b.createWindow from rfl,
      show b.allGood.createProgram = b.createProgram from rfl,
      show b.allGood.genVertexArray = b.genVertexArray from rfl, hq]
    cases (loop b b.createWindow b.createProgram b.genVertexArray fuel (atLoop b)).1
    · simp
    · simp [glfwTerminate, quiet, emit, Call.isInfoLog]
  have htrace : (main b fuel).2.trace.filter (fun c => !c.isInfoLog) =
      (main b.allGood fuel).2.trace := by
    rw [← hmain.2]; rfl
  refine ⟨hmain.1, htrace, ?_, ?_, hmain.2⟩
  · rw [← htrace, List.filter_filter, List.filter_eq_nil_iff]
    intro c _
    cases c <;> simp [Call.isInfoLog]
  · rw [← hmain.2]; rfl

theorem statuses_do_not_stop_witness :
    allStatusesBad.createWindow ≠ 0 ∧ allStatusesBad.loadGL ≠ 0 ∧
    (main allStatusesBad 2).1 = (main allStatusesBad.allGood 2).1 ∧
    (main allStatusesBad 2).2.trace.filter (fun c => !c.isInfoLog) =
      (main allStatusesBad.allGood 2).2.trace :=
  ⟨by decide, by decide, (statuses_do_not_stop allStatusesBad 2 (by decide) (by decide)).1,
    (statuses_do_not_stop allStatusesBad 2 (by decide) (by decide)).2.1⟩

/-- C9, the failing run: when the window is created and the loader fails, `main`
returns -1 having created the window and without calling `glfwTerminate`. -/
theorem loader_failure_skips_terminate :
    (main loaderFails 1).1 = some (-1) ∧
    (main loaderFails 1).2.trace =
      [Call.glfwInit,
        Call.glfwWindowHint GLFW_CONTEXT_VERSION_MAJOR 3,
        Call.glfwWindowHint GLFW_CONTEXT_VERSION_MINOR 3,
        Call.glfwWindowHint GLFW_OPENGL_PROFILE GLFW_OPENGL_CORE_PROFILE,
        Call.glfwCreateWindow 800 600 "learnOpenGL",
        Call.glfwMakeContextCurrent 1,
        Call.gladLoadGLLoader] ∧
    (main loaderFails 1).2.out = ["Unable to load GLAD\n"] ∧
    Call.glfwTerminate ∉ (main loaderFails 1).2.trace := by
  have h := main_loader_fails loaderFails 1 (by decide) rfl
  rw [h]
  refine ⟨rfl, rfl, rfl, ?_⟩
  simp

/-- C10, counterexample: in the one-frame run of `closeAtOnce` the calls from the first
condition check on contain the draw call and no `glBindBuffer` at all; the buffer is
bound in setup only. -/
theorem frame_binds_no_buffer :
    (main closeAtOnce 2).1 = some 0 ∧
    (main closeAtOnce 2).2.trace =
      setupCalls closeAtOnce ++
        [Call.glfwWindowShouldClose 1, Call.glfwGetKey 1 GLFW_KEY_ESCAPE,
          Call.glClearColor 0 0 0 1, Call.glClear GL_COLOR_BUFFER_BIT, Call.glUseProgram 4,
          Call.glBindVertexArray 5, Call.glDrawArrays GL_TRIANGLES 0 3,
          Call.glfwSwapBuffers 1, Call.glfwPollEvents,
          Call.glfwWindowShouldClose 1, Call.glfwTerminate] ∧
    Call.glDrawArrays GL_TRIANGLES 0 3 ∈
      (main closeAtOnce 2).2.trace.drop (setupCalls closeAtOnce).length ∧
    ((main closeAtOnce 2).2.trace.drop (setupCalls closeAtOnce).length).filter
      Call.isBindBuffer = [] := by
  have hw : closeAtOnce.createWindow ≠ 0 := by decide
  have hl : closeAtOnce.loadGL ≠ 0 := by decide
  have hone := main_one_frame closeAtOnce hw hl
    (Or.inr (by simp [closeAtOnce, sampleBackend]))
  have htrace := (main_run closeAtOnce 2 hw hl).1
  rw [hone.2] at htrace
  simp only [hone.1, if_true] at htrace
  have hframe : iterationCalls closeAtOnce closeAtOnce.createWindow closeAtOnce.createProgram
      closeAtOnce.genVertexArray (some closeAtOnce.createWindow) 0 1 =
      [Call.glfwWindowShouldClose 1, Call.glfwGetKey 1 GLFW_KEY_ESCAPE,
        Call.glClearColor 0 0 0 1, Call.glClear GL_COLOR_BUFFER_BIT, Call.glUseProgram 4,
        Call.glBindVertexArray 5, Call.glDrawArrays GL_TRIANGLES 0 3,
        Call.glfwSwapBuffers 1, Call.glfwPollEvents] := by
    simp [iterationCalls, frameCalls, resizeCalls, closeAtOnce, sampleBackend, GLFW_PRESS]
  rw [hframe, List.append_assoc] at htrace
  refine ⟨hone.1, by rw [htrace]; simp [closeAtOnce, sampleBackend], ?_, ?_⟩
  · rw [htrace, List.drop_left]; simp
  · rw [htrace, List.drop_left]; simp [List.filter_cons, Call.isBindBuffer]

/-- C10, as amended: in every run where setup succeeds the trace begins with the setup
calls and holds exactly one buffer generation, one buffer-data upload and two
`glBindBuffer` calls; in the run these come in the order generate, bind the generated
buffer, upload, declare the attribute layout, bind 0, and all of them come before the
first loop condition check.  No loop iteration binds a buffer; each binds the vertex
array generated in setup right before its draw call, and the array buffer binding is 0
throughout the loop. -/
theorem vertex_buffer_bound_in_setup (b : Backend) (fuel : Nat) (hw : b.createWindow ≠ 0)
    (hl : b.loadGL ≠ 0) :
    (main b fuel).2.trace.filter Call.isGenBuffers = [Call.glGenBuffers 1] ∧
    (main b fuel).2.trace.filter Call.isBufferData =
      [Call.glBufferData GL_ARRAY_BUFFER 36 vertices GL_STATIC_DRAW] ∧
    (main b fuel).2.trace.filter Call.isBindBuffer =
      [Call.glBindBuffer GL_ARRAY_BUFFER b.genBuffer, Call.glBindBuffer GL_ARRAY_BUFFER 0] ∧
    (main b fuel).2.trace.filter (fun c =>
        c.isGenBuffers || c.isBindBuffer || c.isBufferData || c.isVertexAttribPointer) =
      [Call.glGenBuffers 1,
        Call.glBindBuffer GL_ARRAY_BUFFER b.genBuffer,
        Call.glBufferData GL_ARRAY_BUFFER 36 vertices GL_STATIC_DRAW,
        Call.glVertexAttribPointer 0 3 GL_FLOAT GL_FALSE 12 0,
        Call.glBindBuffer GL_ARRAY_BUFFER 0] ∧
    (main b fuel).2.trace =
      setupCalls b ++
        iterationCalls b b.createWindow b.createProgram b.genVertexArray
          (some b.createWindow) 0 (main b fuel).2.tick ++
        (if (main b fuel).1 = some 0 then
          [Call.glfwWindowShouldClose b.createWindow, Call.glfwTerminate] else []) ∧
    (∀ before after, (main b fuel).2.trace =
        before ++ Call.glfwWindowShouldClose b.createWindow :: after →
      after.filter (fun c =>
        c.isGenBuffers || c.isBindBuffer || c.isBufferData || c.isVertexAttribPointer) = []) ∧
    ((main b fuel).2.trace.drop (setupCalls b).length).filter
        (fun c => c.isBindBuffer || c.isBindVertexArray || c.isDraw) =
      (List.replicate (main b fuel).2.tick
        [Call.glBindVertexArray b.genVertexArray,
          Call.glDrawArrays GL_TRIANGLES 0 3]).flatten ∧
    (∀ s, ((frame b b.createWindow b.createProgram b.genVertexArray s).trace.drop
        s.trace.length).filter (fun c => c.isBindBuffer || c.isBindVertexArray || c.isDraw) =
      [Call.glBindVertexArray b.genVertexArray, Call.glDrawArrays GL_TRIANGLES 0 3]) ∧
    (main b fuel).2.arrayBuffer = 0 := by
  obtain ⟨htrace, _, _, hbuf, _⟩ := main_run b fuel hw hl
  refine ⟨?_, ?_, ?_, ?_, htrace, ?_, ?_, ?_, hbuf⟩
  · rw [main_filter_setup b fuel hw hl _ (by intro c hc; cases c <;> simp_all [Call.inLoop,
      Call.isGenBuffers]), setupCalls_isGenBuffers]
  · rw [main_filter_setup b fuel hw hl _ (by intro c hc; cases c <;> simp_all [Call.inLoop,
      Call.isBufferData]), setupCalls_isBufferData]
  · rw [main_filter_setup b fuel hw hl _ (by intro c hc; cases c <;> simp_all [Call.inLoop,
      Call.isBindBuffer]), setupCalls_isBindBuffer]
  · rw [main_filter_setup b fuel hw hl _ (by intro c hc; cases c <;> simp_all [Call.inLoop,
      Call.isGenBuffers, Call.isBindBuffer, Call.isBufferData, Call.isVertexAttribPointer]),
      setupCalls_buffer_order]
  · intro before after h
    rw [List.filter_eq_nil_iff]
    intro c hc
    have hin := main_after_check b fuel hw hl before after h c hc
    cases c <;> simp_all [Call.inLoop, Call.isGenBuffers, Call.isBindBuffer,
      Call.isBufferData, Call.isVertexAttribPointer]
  · rw [htrace, List.append_assoc, List.drop_left, List.filter_append,
      iterationCalls_bind_draw]
    split_ifs <;>
      simp [List.filter_cons, Call.isBindBuffer, Call.isBindVertexArray, Call.isDraw]
  · intro s
    have hr := resizeCalls_filter
      (fun c => c.isBindBuffer || c.isBindVertexArray || c.isDraw) (fun _ _ _ _ => rfl)
      s.resizeCallback (b.pollEvents s.tick)
    rw [frame_trace, List.drop_left, frameCalls, List.filter_append, hr, List.append_nil]
    by_cases hkey : b.getKey s.tick GLFW_KEY_ESCAPE = GLFW_PRESS <;>
      simp [List.filter_cons, Call.isBindBuffer, Call.isBindVertexArray, Call.isDraw, hkey]

theorem vertex_buffer_bound_in_setup_witness :
    closeAfterTwo.createWindow ≠ 0 ∧ closeAfterTwo.loadGL ≠ 0 ∧
    (main closeAfterTwo 3).2.trace.filter Call.isBindBuffer =
      [Call.glBindBuffer GL_ARRAY_BUFFER 6, Call.glBindBuffer GL_ARRAY_BUFFER 0] ∧
    (main closeAfterTwo 3).2.trace.filter (fun c =>
        c.isGenBuffers || c.isBindBuffer || c.isBufferData || c.isVertexAttribPointer) =
      [Call.glGenBuffers 1,
        Call.glBindBuffer GL_ARRAY_BUFFER 6,
        Call.glBufferData GL_ARRAY_BUFFER 36 vertices GL_STATIC_DRAW,
        Call.glVertexAttribPointer 0 3 GL_FLOAT GL_FALSE 12 0,
        Call.glBindBuffer GL_ARRAY_BUFFER 0] ∧
    (main closeAfterTwo 3).2.arrayBuffer = 0 :=
  ⟨by decide, by decide,
    (vertex_buffer_bound_in_setup closeAfterTwo 3 (by decide) (by decide)).2.2.1,
    (vertex_buffer_bound_in_setup closeAfterTwo 3 (by decide) (by decide)).2.2.2.1,
    (vertex_buffer_bound_in_setup closeAfterTwo 3 (by decide) (by decide)).2.2.2.2.2.2.2.2⟩

end LearnOpenGL
